import Mathlib

/-
Verification of TFitPiCAN 0.1.0 against its specification.

The repository code (src/tfitpican_simulator/can_sim.py,
src/scenarios/scenario_manager.py) is embedded shallowly: each Python
method becomes a Lean function from the instance state to the pair of
the new instance state and the list of strings it prints.  The file
src/tfitpican_simulator/can_manager.py contains only the unit tests of
the CANManager class; the class itself is absent from the sources, so
it is modelled from the specification and its tests.  The CAN core
described by the specification (Frame, Node, ArbitrationBus, Scheduler,
ScenarioEngine) has no implementation in the sources; it is modelled
from the specification text.
-/

/-- Embedding of the class CANBusSimulator from can_sim.py: three
instance fields set by its constructor. -/
structure CANBusSimulator where
  status : String
  speed : Nat
  doors : Nat
  deriving DecidableEq, Repr

/-- The constructor of CANBusSimulator: status "Stopped", speed 0, doors 0. -/
def CANBusSimulator.init : CANBusSimulator :=
  { status := "Stopped", speed := 0, doors := 0 }

/-- Method start of can_sim.py: sets status to "Running" and prints
"Simulator started". -/
def CANBusSimulator.start (s : CANBusSimulator) : CANBusSimulator × List String :=
  ({ s with status := "Running" }, ["Simulator started"])

/-- Method stop of can_sim.py: sets status to "Stopped" and prints
"Simulator stopped". -/
def CANBusSimulator.stop (s : CANBusSimulator) : CANBusSimulator × List String :=
  ({ s with status := "Stopped" }, ["Simulator stopped"])

/-- The public methods of CANBusSimulator. -/
inductive SimulatorCall where
  | start
  | stop
  deriving DecidableEq, Repr

/-- Dispatch one method call on a CANBusSimulator instance. -/
def CANBusSimulator.call (s : CANBusSimulator) : SimulatorCall → CANBusSimulator × List String
  | SimulatorCall.start => s.start
  | SimulatorCall.stop => s.stop

/-- Run a sequence of method calls on a CANBusSimulator instance,
keeping the final state. -/
def runCalls (s : CANBusSimulator) : List SimulatorCall → CANBusSimulator
  | [] => s
  | c :: cs => runCalls (s.call c).1 cs

/-- Embedding of the class ScenarioManager from scenario_manager.py: it
defines no constructor and its methods assign no attribute, so an
instance carries no fields. -/
structure ScenarioManager where
  deriving DecidableEq, Repr

/-- Method load_scenario of scenario_manager.py: prints
"Scenario '<name>' loaded" and assigns no attribute. -/
def ScenarioManager.load_scenario (m : ScenarioManager) (name : String) :
    ScenarioManager × List String :=
  (m, ["Scenario \x27" ++ name ++ "\x27 loaded"])

/-- Method run_scenario of scenario_manager.py: prints
"Scenario running..." and assigns no attribute. -/
def ScenarioManager.run_scenario (m : ScenarioManager) : ScenarioManager × List String :=
  (m, ["Scenario running..."])

/-- Method stop_scenario of scenario_manager.py: prints
"Scenario stopped" and assigns no attribute. -/
def ScenarioManager.stop_scenario (m : ScenarioManager) : ScenarioManager × List String :=
  (m, ["Scenario stopped"])

/-- The public methods of ScenarioManager. -/
inductive ManagerCall where
  | load_scenario (name : String)
  | run_scenario
  | stop_scenario
  deriving DecidableEq, Repr

/-- Dispatch one method call on a ScenarioManager instance. -/
def ScenarioManager.call (m : ScenarioManager) : ManagerCall → ScenarioManager × List String
  | ManagerCall.load_scenario name => m.load_scenario name
  | ManagerCall.run_scenario => m.run_scenario
  | ManagerCall.stop_scenario => m.stop_scenario

/-- Modelled from the spec: the class CANManager is missing from the
sources (src/tfitpican_simulator/can_manager.py holds its unit tests
instead).  Per the spec its methods print a status string and set a
field; per its tests the constructor stores the simulator and the
methods print exactly "CAN interface connected",
"CAN interface disconnected" and "Handling message: <msg>". -/
structure CANManager where
  simulator : CANBusSimulator
  connected : Bool
  last_message : Option String
  deriving DecidableEq, Repr

/-- Modelled from the spec: the CANManager constructor stores the
simulator reference. -/
def CANManager.init (sim : CANBusSimulator) : CANManager :=
  { simulator := sim, connected := false, last_message := none }

/-- Modelled from the spec: connect_can prints "CAN interface connected"
and sets a field recording the connection. -/
def CANManager.connect_can (m : CANManager) : CANManager × List String :=
  ({ m with connected := true }, ["CAN interface connected"])

/-- Modelled from the spec: disconnect_can prints
"CAN interface disconnected" and clears the connection field. -/
def CANManager.disconnect_can (m : CANManager) : CANManager × List String :=
  ({ m with connected := false }, ["CAN interface disconnected"])

/-- Modelled from the spec: handle_message prints
"Handling message: <msg>" and records the message. -/
def CANManager.handle_message (m : CANManager) (msg : String) : CANManager × List String :=
  ({ m with last_message := some msg }, ["Handling message: " ++ msg])

/-- A world of two CANBusSimulator instances; a call is applied to the
first or to the second instance. -/
def stepSimWorld (w : CANBusSimulator × CANBusSimulator) (first : Bool)
    (c : SimulatorCall) : (CANBusSimulator × CANBusSimulator) × List String :=
  if first then
    let r := w.1.call c
    ((r.1, w.2), r.2)
  else
    let r := w.2.call c
    ((w.1, r.1), r.2)

/-- A world of two ScenarioManager instances; a call is applied to the
first or to the second instance. -/
def stepMgrWorld (w : ScenarioManager × ScenarioManager) (first : Bool)
    (c : ManagerCall) : (ScenarioManager × ScenarioManager) × List String :=
  if first then
    let r := w.1.call c
    ((r.1, w.2), r.2)
  else
    let r := w.2.call c
    ((w.1, r.1), r.2)

/-- C1: for every simulator state, start() sets status to "Running" and
prints exactly the one string "Simulator started", and stop() sets
status to "Stopped" and prints exactly the one string
"Simulator stopped". -/
theorem simulator_start_stop_print_and_set (s : CANBusSimulator) :
    s.start = ({ s with status := "Running" }, ["Simulator started"]) ∧
    s.stop = ({ s with status := "Stopped" }, ["Simulator stopped"]) :=
  ⟨rfl, rfl⟩

/-- Helper for the reachable-state invariant: a method-call sequence
keeps status within the two-value set. -/
theorem runCalls_status_mem (cs : List SimulatorCall) (s : CANBusSimulator)
    (h : s.status = "Stopped" ∨ s.status = "Running") :
    (runCalls s cs).status = "Stopped" ∨ (runCalls s cs).status = "Running" := by
  induction cs generalizing s with
  | nil => exact h
  | cons c cs ih =>
    cases c with
    | start => exact ih _ (Or.inr rfl)
    | stop => exact ih _ (Or.inl rfl)

/-- C9: a newly constructed CANBusSimulator has status "Stopped", and
after any sequence of start/stop calls the status field is still either
"Stopped" or "Running". -/
theorem simulator_status_two_valued (cs : List SimulatorCall) :
    CANBusSimulator.init.status = "Stopped" ∧
    ((runCalls CANBusSimulator.init cs).status = "Stopped" ∨
      (runCalls CANBusSimulator.init cs).status = "Running") :=
  ⟨rfl, runCalls_status_mem cs CANBusSimulator.init (Or.inl rfl)⟩

/-- Helper for the frame condition: a method-call sequence never changes
speed or doors. -/
theorem runCalls_speed_doors (cs : List SimulatorCall) (s : CANBusSimulator) :
    (runCalls s cs).speed = s.speed ∧ (runCalls s cs).doors = s.doors := by
  induction cs generalizing s with
  | nil => exact ⟨rfl, rfl⟩
  | cons c cs ih =>
    cases c with
    | start => exact ih _
    | stop => exact ih _

/-- C10: speed and doors are initialised to 0 and never modified: start
and stop change only the status field, and after any sequence of calls
speed and doors are still 0. -/
theorem simulator_speed_doors_frozen (cs : List SimulatorCall)
    (s : CANBusSimulator) (c : SimulatorCall) :
    CANBusSimulator.init.speed = 0 ∧ CANBusSimulator.init.doors = 0 ∧
    (runCalls CANBusSimulator.init cs).speed = 0 ∧
    (runCalls CANBusSimulator.init cs).doors = 0 ∧
    ((s.call c).1).speed = s.speed ∧ ((s.call c).1).doors = s.doors := by
  refine ⟨rfl, rfl, (runCalls_speed_doors cs _).1, (runCalls_speed_doors cs _).2, ?_, ?_⟩ <;>
    cases c <;> rfl

/-- C4: instances are isolated: applying any method call to one instance
of a two-instance world leaves the other instance unchanged, both for
CANBusSimulator and for ScenarioManager; no state outside the called
instance is touched. -/
theorem instances_isolated (w : CANBusSimulator × CANBusSimulator)
    (v : ScenarioManager × ScenarioManager) (c : SimulatorCall) (mc : ManagerCall) :
    ((stepSimWorld w true c).1).2 = w.2 ∧
    ((stepSimWorld w false c).1).1 = w.1 ∧
    ((stepMgrWorld v true mc).1).2 = v.2 ∧
    ((stepMgrWorld v false mc).1).1 = v.1 :=
  ⟨rfl, rfl, rfl, rfl⟩

/-- C6 counterexample: run_scenario on a ScenarioManager instance
returns the instance unchanged and only prints: it sets no field,
contradicting the claim that every listed method sets a field. -/
theorem scenario_manager_sets_no_field :
    ScenarioManager.run_scenario ScenarioManager.mk =
      (ScenarioManager.mk, ["Scenario running..."]) :=
  rfl

/-- C6 amended: each listed method prints exactly its status string; the
modelled CANManager methods set a field, but the ScenarioManager methods
set no field (ScenarioManager instances carry no state). -/
theorem manager_methods_print_exact (m : ScenarioManager) (cm : CANManager)
    (name msg : String) :
    m.load_scenario name = (m, ["Scenario \x27" ++ name ++ "\x27 loaded"]) ∧
    m.run_scenario = (m, ["Scenario running..."]) ∧
    m.stop_scenario = (m, ["Scenario stopped"]) ∧
    cm.connect_can = ({ cm with connected := true }, ["CAN interface connected"]) ∧
    cm.disconnect_can = ({ cm with connected := false }, ["CAN interface disconnected"]) ∧
    cm.handle_message msg =
      ({ cm with last_message := some msg }, ["Handling message: " ++ msg]) :=
  ⟨rfl, rfl, rfl, rfl, rfl, rfl⟩

/-- Modelled from the spec: the error taxonomy of the CAN core, which
has no implementation in the sources. -/
inductive CoreError where
  | InvalidFrame
  | InvalidSchedule
  | SessionStopped
  | UnknownNode
  deriving DecidableEq, Repr

/-- Modelled from the spec: a CAN frame value (identifier, data bytes,
declared length, standard/extended flag, frame-type flags); the Frame
type is absent from the sources. -/
structure Frame where
  identifier : Nat
  data : List Nat
  dlc : Nat
  extended : Bool
  is_error_frame : Bool
  is_remote_request : Bool
  deriving DecidableEq, Repr

/-- Bit width of a frame identifier: 29 bits when extended, 11 otherwise. -/
def Frame.bits (f : Frame) : Nat := if f.extended then 29 else 11

/-- Modelled from the spec: validated Frame construction, failing with
InvalidFrame when the data exceeds 8 bytes, the identifier exceeds its
bit-width range, or dlc mismatches the data length. -/
def mkFrame (i : Nat) (data : List Nat) (dlc : Nat) (ext er rr : Bool) :
    Except CoreError Frame :=
  if 8 < data.length then Except.error CoreError.InvalidFrame
  else if 2 ^ (if ext then 29 else 11) ≤ i then Except.error CoreError.InvalidFrame
  else if dlc ≠ data.length then Except.error CoreError.InvalidFrame
  else Except.ok ⟨i, data, dlc, ext, er, rr⟩

/-- C7: mkFrame fails with InvalidFrame exactly when the data length
exceeds 8, the identifier exceeds its declared bit-width range, or dlc
mismatches the data length; every successfully constructed Frame
satisfies dlc = data length and identifier < 2 ^ bits. -/
theorem frame_construction (i : Nat) (data : List Nat) (dlc : Nat) (ext er rr : Bool) :
    (mkFrame i data dlc ext er rr = Except.error CoreError.InvalidFrame ↔
      (8 < data.length ∨ 2 ^ (if ext then 29 else 11) ≤ i ∨ dlc ≠ data.length)) ∧
    ∀ f : Frame, mkFrame i data dlc ext er rr = Except.ok f →
      f.dlc = f.data.length ∧ f.identifier < 2 ^ f.bits := by
  by_cases h1 : 8 < data.length
  · have e : mkFrame i data dlc ext er rr = Except.error CoreError.InvalidFrame := by
      unfold mkFrame
      rw [if_pos h1]
    rw [e]
    exact ⟨⟨fun _ => Or.inl h1, fun _ => rfl⟩, fun f hf => Except.noConfusion hf⟩
  · by_cases h2 : 2 ^ (if ext then 29 else 11) ≤ i
    · have e : mkFrame i data dlc ext er rr = Except.error CoreError.InvalidFrame := by
        unfold mkFrame
        rw [if_neg h1, if_pos h2]
      rw [e]
      exact ⟨⟨fun _ => Or.inr (Or.inl h2), fun _ => rfl⟩, fun f hf => Except.noConfusion hf⟩
    · by_cases h3 : dlc = data.length
      · have e : mkFrame i data dlc ext er rr =
            Except.ok ⟨i, data, dlc, ext, er, rr⟩ := by
          unfold mkFrame
          rw [if_neg h1, if_neg h2, if_neg (not_ne_iff.mpr h3)]
        rw [e]
        refine ⟨⟨fun hf => Except.noConfusion hf, fun hc => ?_⟩, fun f hf => ?_⟩
        · rcases hc with hc | hc | hc
          · exact absurd hc h1
          · exact absurd hc h2
          · exact absurd h3 hc
        · obtain rfl := (Except.ok.inj hf).symm
          exact ⟨h3, by simpa [Frame.bits] using Nat.lt_of_not_le h2⟩
      · have e : mkFrame i data dlc ext er rr = Except.error CoreError.InvalidFrame := by
          unfold mkFrame
          rw [if_neg h1, if_neg h2, if_pos h3]
        rw [e]
        exact ⟨⟨fun _ => Or.inr (Or.inr h3), fun _ => rfl⟩, fun f hf => Except.noConfusion hf⟩

/-- A concrete well-formed frame used as evaluation input. -/
def frameDemo : Frame :=
  { identifier := 5, data := [1, 2], dlc := 2, extended := false,
    is_error_frame := false, is_remote_request := false }

/-- Witness for C7: construction at a concrete valid input succeeds and
the constructed frame satisfies the invariants. -/
theorem frame_construction_witness :
    frameDemo.dlc = frameDemo.data.length ∧
      frameDemo.identifier < 2 ^ frameDemo.bits :=
  (frame_construction 5 [1, 2] 2 false false false).2 frameDemo rfl

/-- Modelled from the spec: one entry of a Node transmit schedule
(frame template, period in ticks, next due tick). -/
structure SchedEntry where
  template : Frame
  period_ticks : Nat
  next_due_tick : Nat
  deriving DecidableEq, Repr

/-- Modelled from the spec: a virtual ECU attached to the bus, with a
transmit schedule, a one-shot event queue, a receive filter (empty list
accepts every identifier), a bounded receive queue with drop-oldest
overflow, an error counter and a bus-off flag; the Node type is absent
from the sources. -/
structure Node where
  name : String
  tx_schedule : List SchedEntry
  event_queue : List Frame
  rx_filter : List Nat
  rx_queue : List Frame
  rx_capacity : Nat
  error_count : Nat
  bus_off : Bool
  deriving DecidableEq, Repr

/-- Modelled from the spec: schedule_periodic registers a recurring
transmission and fails with InvalidSchedule if the period is not
positive. -/
def Node.schedule_periodic (n : Node) (tmpl : Frame) (period : Nat) :
    Except CoreError Node :=
  if period = 0 then Except.error CoreError.InvalidSchedule
  else Except.ok
    { n with tx_schedule := n.tx_schedule ++ [⟨tmpl, period, 0⟩] }

/-- Modelled from the spec: queue_event_frame enqueues a one-shot
transmission for the next tick. -/
def Node.queue_event_frame (n : Node) (f : Frame) : Node :=
  { n with event_queue := n.event_queue ++ [f] }

/-- A frame matches a receive filter when the filter is empty (accept
all) or lists its identifier. -/
def matchesFilter (filt : List Nat) (f : Frame) : Bool :=
  filt.isEmpty || filt.contains f.identifier

/-- Modelled from the spec: receive delivers a matching frame, appends
it to the bounded receive queue dropping the oldest entries on
overflow, and counts error frames. -/
def Node.receive (n : Node) (f : Frame) : Node :=
  if matchesFilter n.rx_filter f then
    let q := n.rx_queue ++ [f]
    let q2 := if n.rx_capacity < q.length then q.drop (q.length - n.rx_capacity) else q
    { n with
      rx_queue := q2
      error_count := n.error_count + (if f.is_error_frame then 1 else 0) }
  else n

/-- Modelled from the spec: on_tick fires the periodic frames whose
next due tick has arrived, advancing each by its period, and flushes
the one-shot event queue. -/
def Node.on_tick (n : Node) (t : Nat) : Node × List Frame :=
  let fired := (n.tx_schedule.filter (fun s => s.next_due_tick ≤ t)).map
    (fun s => s.template)
  let sched := n.tx_schedule.map (fun s =>
    if s.next_due_tick ≤ t then { s with next_due_tick := s.next_due_tick + s.period_ticks }
    else s)
  ({ n with tx_schedule := sched, event_queue := [] }, fired ++ n.event_queue)

/-- Modelled from the spec: a timed fault specification of the
ScenarioEngine. -/
inductive FaultSpec where
  | drop (node : String)
  | corrupt (node : String) (byte_mask : Nat)
  | force_error_frame
  | bus_off (node : String)
  deriving DecidableEq, Repr

/-- Modelled from the spec: one recorded bus event (tick, event kind and
payload) of the observer layer. -/
inductive BusEvent where
  | fault_applied (tick : Nat) (fault : FaultSpec)
  | delivered (tick : Nat) (node : String) (frame : Frame)
  | arbitration_loss (tick : Nat) (node : String) (frame : Frame)
  deriving DecidableEq, Repr

/-- Arbitration comparison: the candidate frame b beats the current
winner a when b is an error frame and a is not, or both have the same
error status and b has the numerically lower identifier; on ties the
earlier submission wins. -/
def beats (a b : Frame) : Bool :=
  (b.is_error_frame && !a.is_error_frame) ||
    ((b.is_error_frame == a.is_error_frame) && decide (b.identifier < a.identifier))

/-- Modelled from the spec: the ArbitrationBus contention resolution:
pick the winning submission (lowest identifier, error frames dominant,
first submitted wins ties) and return it with the losing submissions in
submission order. -/
def arbitrate : List (String × Frame) →
    Option ((String × Frame) × List (String × Frame))
  | [] => none
  | x :: xs =>
    match arbitrate xs with
    | none => some (x, [])
    | some (w, ls) => if beats x.2 w.2 then some (w, x :: ls) else some (x, xs)

/-- Broadcast a winning frame to every node that is not bus-off. -/
def deliverAll (f : Frame) (ns : List Node) : List Node :=
  ns.map (fun n => if n.bus_off then n else n.receive f)

/-- Modelled from the spec: resolve one tick of bus contention: the
winner is broadcast to every node, the losers are requeued for the next
tick, and the corresponding bus events are recorded. -/
def resolveTick (t : Nat) (ns : List Node) (subs : List (String × Frame)) :
    List Node × List (String × Frame) × List BusEvent :=
  match arbitrate subs with
  | none => (ns, [], [])
  | some (w, ls) =>
    (deliverAll w.2 ns, ls,
      BusEvent.delivered t w.1 w.2 ::
        ls.map (fun p => BusEvent.arbitration_loss t p.1 p.2))

/-- The session state machine of the Scheduler. -/
inductive SessionState where
  | Idle
  | Running
  | Paused
  | Stopped
  deriving DecidableEq, Repr

/-- Modelled from the spec: the state of a ScenarioEngine: its nodes,
the timed fault injections, the submissions requeued from the previous
tick, the tick counter, the session state and the recorded event
trace. -/
structure ScenarioEngine where
  nodes : List Node
  injected_faults : List (Nat × FaultSpec)
  pending : List (String × Frame)
  current_tick : Nat
  session : SessionState
  events : List BusEvent
  deriving DecidableEq, Repr

/-- Apply the bus-off faults of the current tick to the nodes. -/
def applyNodeFaults (fs : List FaultSpec) (ns : List Node) : List Node :=
  ns.map (fun n =>
    if fs.any (fun f => match f with
        | FaultSpec.bus_off m => m == n.name
        | _ => false) then
      { n with bus_off := true }
    else n)

/-- Collect the submissions of every node that is not bus-off, tagging
each frame with its sender. -/
def collectSubs (t : Nat) : List Node → List Node × List (String × Frame)
  | [] => ([], [])
  | n :: ns =>
    let rest := collectSubs t ns
    if n.bus_off then (n :: rest.1, rest.2)
    else
      let r := n.on_tick t
      (r.1 :: rest.1, r.2.map (fun f => (n.name, f)) ++ rest.2)

/-- Whether the fault list drops the submissions of the named node this
tick. -/
def faultDrops (fs : List FaultSpec) (name : String) : Bool :=
  fs.any (fun f => match f with
    | FaultSpec.drop m => m == name
    | _ => false)

/-- The corruption mask the fault list applies to the named node this
tick, when one is present. -/
def faultMask (fs : List FaultSpec) (name : String) : Option Nat :=
  fs.findSome? (fun f => match f with
    | FaultSpec.corrupt m mask => if m == name then some mask else none
    | _ => none)

/-- Corrupt a frame by combining each data byte with the mask. -/
def corruptFrame (mask : Nat) (f : Frame) : Frame :=
  { f with data := f.data.map (fun b => (b ^^^ mask) % 256) }

/-- Apply the drop and corrupt faults of the current tick to the
collected submissions. -/
def applySubFaults (fs : List FaultSpec) (subs : List (String × Frame)) :
    List (String × Frame) :=
  (subs.filter (fun p => !faultDrops fs p.1)).map (fun p =>
    match faultMask fs p.1 with
    | some mask => (p.1, corruptFrame mask p.2)
    | none => p)

/-- The injected error frame broadcast by a force_error_frame fault. -/
def errorFrame : Frame :=
  { identifier := 0, data := [], dlc := 0, extended := false,
    is_error_frame := true, is_remote_request := false }

/-- Whether the fault list forces an error frame this tick. -/
def forcesError (fs : List FaultSpec) : Bool :=
  fs.any (fun f => match f with
    | FaultSpec.force_error_frame => true
    | _ => false)

/-- Modelled from the spec: one tick of the ScenarioEngine, in order:
fault injection, collection of node transmissions (requeued losers
first), arbitration and broadcast, tick counter increment. -/
def ScenarioEngine.stepTick (e : ScenarioEngine) : ScenarioEngine :=
  let t := e.current_tick
  let fs := (e.injected_faults.filter (fun p => p.1 == t)).map (fun p => p.2)
  let ns0 := applyNodeFaults fs e.nodes
  let col := collectSubs t ns0
  let subs0 := e.pending ++ col.2
  let subs1 := applySubFaults fs subs0
  let subs2 := (if forcesError fs then [("", errorFrame)] else []) ++ subs1
  let r := resolveTick t col.1 subs2
  { e with
    nodes := r.1
    pending := r.2.1
    current_tick := t + 1
    events := e.events ++ fs.map (fun f => BusEvent.fault_applied t f) ++ r.2.2 }

/-- Iterate stepTick a given number of ticks. -/
def iterSteps : Nat → ScenarioEngine → ScenarioEngine
  | 0, e => e
  | n + 1, e => iterSteps n e.stepTick

/-- Modelled from the spec: run(n_ticks) advances exactly n ticks, and
fails with SessionStopped once the session has been stopped. -/
def ScenarioEngine.run (e : ScenarioEngine) (n : Nat) :
    Except CoreError ScenarioEngine :=
  match e.session with
  | SessionState.Stopped => Except.error CoreError.SessionStopped
  | _ => Except.ok (iterSteps n { e with session := SessionState.Running })

/-- Modelled from the spec: stop() moves the session to the terminal
Stopped state and changes nothing else. -/
def ScenarioEngine.stop (e : ScenarioEngine) : ScenarioEngine :=
  { e with session := SessionState.Stopped }

/-- Modelled from the spec: pause() suspends a running session at a
tick boundary. -/
def ScenarioEngine.pause (e : ScenarioEngine) : ScenarioEngine :=
  if e.session = SessionState.Running then { e with session := SessionState.Paused }
  else e

/-- Modelled from the spec: resume() continues a paused session. -/
def ScenarioEngine.resume (e : ScenarioEngine) : ScenarioEngine :=
  if e.session = SessionState.Paused then { e with session := SessionState.Running }
  else e

/-- Modelled from the spec: one node entry of an in-memory scenario
descriptor (name, periodic schedules as frame/period pairs, receive
queue capacity). -/
structure NodeSpec where
  name : String
  schedules : List (Frame × Nat)
  rx_capacity : Nat
  deriving DecidableEq, Repr

/-- Modelled from the spec: the in-memory scenario descriptor consumed
by ScenarioEngine.load (node list with schedules, fault list). -/
structure Descriptor where
  node_specs : List NodeSpec
  faults : List (Nat × FaultSpec)
  deriving DecidableEq, Repr

/-- A frame is well formed when its data fits in 8 bytes, its identifier
fits its bit width and its dlc equals its data length. -/
def frameWellFormed (f : Frame) : Bool :=
  decide (f.data.length ≤ 8) && decide (f.identifier < 2 ^ f.bits) &&
    (f.dlc == f.data.length)

/-- The node a fault spec targets, when it targets one. -/
def faultTarget : FaultSpec → Option String
  | FaultSpec.drop m => some m
  | FaultSpec.corrupt m _ => some m
  | FaultSpec.force_error_frame => none
  | FaultSpec.bus_off m => some m

/-- Validation of a scenario descriptor: every scheduled frame is well
formed, every period is positive, and every targeted fault names a
declared node. -/
def validDescriptor (d : Descriptor) : Bool :=
  d.node_specs.all (fun ns =>
    ns.schedules.all (fun p => frameWellFormed p.1 && decide (0 < p.2))) &&
  d.faults.all (fun p =>
    match faultTarget p.2 with
    | none => true
    | some m => (d.node_specs.map (fun ns => ns.name)).contains m)

/-- The error a failed load reports: InvalidFrame for a malformed
frame, InvalidSchedule for a non-positive period, UnknownNode for a
fault naming an undeclared node. -/
def loadError (d : Descriptor) : CoreError :=
  if d.node_specs.all (fun ns => ns.schedules.all (fun p => frameWellFormed p.1)) then
    if d.node_specs.all (fun ns => ns.schedules.all (fun p => decide (0 < p.2))) then
      CoreError.UnknownNode
    else CoreError.InvalidSchedule
  else CoreError.InvalidFrame

/-- Build the initial Node of a node entry. -/
def buildNode (ns : NodeSpec) : Node :=
  { name := ns.name
    tx_schedule := ns.schedules.map (fun p => ⟨p.1, p.2, 0⟩)
    event_queue := []
    rx_filter := []
    rx_queue := []
    rx_capacity := ns.rx_capacity
    error_count := 0
    bus_off := false }

/-- The initial ScenarioEngine of a descriptor: tick 0, Idle session,
no pending submissions, empty trace. -/
def initEngine (d : Descriptor) : ScenarioEngine :=
  { nodes := d.node_specs.map buildNode
    injected_faults := d.faults
    pending := []
    current_tick := 0
    session := SessionState.Idle
    events := [] }

/-- Modelled from the spec: ScenarioEngine.load validates the
descriptor up front and builds the initial engine; every error is
detected at load time. -/
def ScenarioEngine.load (d : Descriptor) : Except CoreError ScenarioEngine :=
  if validDescriptor d then Except.ok (initEngine d)
  else Except.error (loadError d)

/-- Modelled from the spec: the controlling layer holding at most one
loaded engine; a failed load reports its error and keeps the previous
engine. -/
structure Controller where
  engine : Option ScenarioEngine
  deriving DecidableEq, Repr

/-- Modelled from the spec: Controller.load replaces the engine on a
successful load and leaves all prior state untouched on a failed one. -/
def Controller.load (c : Controller) (d : Descriptor) :
    Controller × Option CoreError :=
  match ScenarioEngine.load d with
  | Except.ok e => ({ engine := some e }, none)
  | Except.error err => (c, some err)

/-- Advancing an engine by a number of ticks, as a relation: one
derivation per run of the scenario. -/
inductive Steps : ScenarioEngine → Nat → ScenarioEngine → Prop where
  | zero (e : ScenarioEngine) : Steps e 0 e
  | succ (e : ScenarioEngine) (n : Nat) (e1 : ScenarioEngine) :
      Steps e.stepTick n e1 → Steps e (n + 1) e1

/-- A complete run of a scenario descriptor: load the descriptor,
advance the given number of ticks, observe the event trace. -/
inductive ScenarioRun : Descriptor → Nat → List BusEvent → Prop where
  | mk (d : Descriptor) (n : Nat) (e e1 : ScenarioEngine) :
      ScenarioEngine.load d = Except.ok e → Steps e n e1 →
      ScenarioRun d n e1.events

/-- Helper: the Steps relation is a function of its first two
arguments. -/
theorem Steps.unique {e : ScenarioEngine} {n : Nat} {e1 e2 : ScenarioEngine}
    (h1 : Steps e n e1) (h2 : Steps e n e2) : e1 = e2 := by
  induction h1 generalizing e2 with
  | zero e => cases h2 with | zero => rfl
  | succ e n e1 h ih => cases h2 with | succ _ _ _ h2 => exact ih h2

/-- C2: stop() is terminal: after stop() every further run call fails
with SessionStopped, and the tick counter and the rest of the session
state are unchanged by the failed call. -/
theorem stop_terminal_run_fails (e : ScenarioEngine) (n : Nat) :
    ScenarioEngine.run e.stop n = Except.error CoreError.SessionStopped ∧
    (e.stop).current_tick = e.current_tick ∧
    (e.stop).session = SessionState.Stopped ∧
    (e.stop).nodes = e.nodes ∧
    (e.stop).pending = e.pending ∧
    (e.stop).events = e.events :=
  ⟨rfl, rfl, rfl, rfl, rfl, rfl⟩

/-- C3: the simulation core is deterministic: two runs of the same
scenario descriptor for the same tick count produce identical event
sequences; a run is a function of the descriptor and the tick count
alone, with no wall-clock or random input. -/
theorem scenario_run_deterministic (d : Descriptor) (n : Nat)
    (t1 t2 : List BusEvent) (h1 : ScenarioRun d n t1) (h2 : ScenarioRun d n t2) :
    t1 = t2 := by
  cases h1 with
  | mk e e1 hl hs =>
    cases h2 with
    | mk e2 e3 hl2 hs2 =>
      obtain rfl : e = e2 := Except.ok.inj (hl.symm.trans hl2)
      obtain rfl : e1 = e3 := Steps.unique hs hs2
      rfl

/-- A concrete data frame with identifier 0x100, used as evaluation
input. -/
def frameX : Frame :=
  { identifier := 256, data := [1], dlc := 1, extended := false,
    is_error_frame := false, is_remote_request := false }

/-- A concrete data frame with identifier 0x200, used as evaluation
input. -/
def frameY : Frame :=
  { identifier := 512, data := [2], dlc := 1, extended := false,
    is_error_frame := false, is_remote_request := false }

/-- A concrete one-node scenario descriptor used as evaluation input. -/
def demoDescriptor : Descriptor :=
  { node_specs := [⟨"X", [(frameX, 10)], 8⟩], faults := [] }

/-- Witness for C3: two derivations of a one-tick run of the concrete
descriptor yield the same trace, evaluated to its one delivery. -/
theorem scenario_run_deterministic_witness :
    ((initEngine demoDescriptor).stepTick).events =
      [BusEvent.delivered 0 "X" frameX] :=
  scenario_run_deterministic demoDescriptor 1 _ _
    (ScenarioRun.mk demoDescriptor 1 (initEngine demoDescriptor)
      ((initEngine demoDescriptor).stepTick) rfl
      (Steps.succ _ 0 _ (Steps.zero _)))
    ((ScenarioRun.mk demoDescriptor 1 (initEngine demoDescriptor)
      ((initEngine demoDescriptor).stepTick) rfl
      (Steps.succ _ 0 _ (Steps.zero _)) :
        ScenarioRun demoDescriptor 1 [BusEvent.delivered 0 "X" frameX]))

/-- C5: loading cannot crash (it is a total function into a result
value); a load of an invalid descriptor fails and leaves all prior
controller state untouched, and scheduling with a non-positive period
fails with InvalidSchedule. -/
theorem load_never_crashes_atomic (c : Controller) (d : Descriptor)
    (n : Node) (f : Frame) (h : validDescriptor d = false) :
    (c.load d).1 = c ∧ ((c.load d).2).isSome = true ∧
    Node.schedule_periodic n f 0 = Except.error CoreError.InvalidSchedule := by
  have e : ScenarioEngine.load d = Except.error (loadError d) := by
    unfold ScenarioEngine.load
    rw [h]
    rfl
  have e2 : c.load d = (c, some (loadError d)) := by
    unfold Controller.load
    rw [e]
  rw [e2]
  exact ⟨rfl, rfl, rfl⟩

/-- A concrete malformed frame (nine data bytes), used as evaluation
input. -/
def badFrame : Frame :=
  { identifier := 5, data := [0, 0, 0, 0, 0, 0, 0, 0, 0], dlc := 9,
    extended := false, is_error_frame := false, is_remote_request := false }

/-- A concrete malformed scenario descriptor, used as evaluation
input. -/
def badDescriptor : Descriptor :=
  { node_specs := [⟨"X", [(badFrame, 10)], 8⟩], faults := [] }

/-- Witness for C5: loading the concrete malformed descriptor fails and
keeps the prior controller state. -/
theorem load_never_crashes_atomic_witness :
    (Controller.load ⟨none⟩ badDescriptor).1 = (⟨none⟩ : Controller) ∧
    ((Controller.load ⟨none⟩ badDescriptor).2).isSome = true ∧
    Node.schedule_periodic (buildNode ⟨"X", [], 8⟩) badFrame 0 =
      Except.error CoreError.InvalidSchedule :=
  load_never_crashes_atomic ⟨none⟩ badDescriptor (buildNode ⟨"X", [], 8⟩)
    badFrame (by decide)

/-- C8: when two nodes submit data frames with identifiers A < B in the
same tick (in either submission order), the frame with the lower
identifier wins arbitration and is delivered this tick, and the other
frame is requeued for the next tick rather than lost. -/
theorem arbitration_priority (t : Nat) (ns : List Node) (n1 n2 : String)
    (fA fB : Frame) (hA : fA.is_error_frame = false)
    (hB : fB.is_error_frame = false) (hlt : fA.identifier < fB.identifier) :
    (resolveTick t ns [(n1, fA), (n2, fB)]).2.1 = [(n2, fB)] ∧
    (resolveTick t ns [(n1, fA), (n2, fB)]).2.2 =
      [BusEvent.delivered t n1 fA, BusEvent.arbitration_loss t n2 fB] ∧
    (resolveTick t ns [(n2, fB), (n1, fA)]).2.1 = [(n2, fB)] ∧
    (resolveTick t ns [(n2, fB), (n1, fA)]).2.2 =
      [BusEvent.delivered t n1 fA, BusEvent.arbitration_loss t n2 fB] := by
  have hba : beats fA fB = false := by
    simp [beats, hA, hB, Nat.lt_asymm hlt]
  have hab : beats fB fA = true := by
    simp [beats, hA, hB, hlt]
  have e1 : arbitrate [(n1, fA), (n2, fB)] = some ((n1, fA), [(n2, fB)]) := by
    simp [arbitrate, hba]
  have e2 : arbitrate [(n2, fB), (n1, fA)] = some ((n1, fA), [(n2, fB)]) := by
    simp [arbitrate, hab]
  refine ⟨?_, ?_, ?_, ?_⟩ <;> simp [resolveTick, e1, e2]

/-- Witness for C8: with the concrete frames of identifiers 0x100 and
0x200, the 0x100 frame wins and the 0x200 frame is requeued, in either
submission order. -/
theorem arbitration_priority_witness :
    (resolveTick 0 [] [("X", frameX), ("Y", frameY)]).2.1 = [("Y", frameY)] ∧
    (resolveTick 0 [] [("X", frameX), ("Y", frameY)]).2.2 =
      [BusEvent.delivered 0 "X" frameX, BusEvent.arbitration_loss 0 "Y" frameY] ∧
    (resolveTick 0 [] [("Y", frameY), ("X", frameX)]).2.1 = [("Y", frameY)] ∧
    (resolveTick 0 [] [("Y", frameY), ("X", frameX)]).2.2 =
      [BusEvent.delivered 0 "X" frameX, BusEvent.arbitration_loss 0 "Y" frameY] :=
  arbitration_priority 0 [] "X" "Y" frameX frameY rfl rfl (by decide)
